import Mathlib

/-!
Shallow embedding of `src/data_morph/shapes.py` (the shape library of the
data-morph repository) and verification of the specification's claims about it.

Python floats are modelled as real numbers; `scipy.spatial.distance.euclidean`
is the L2 distance.  Fallible Python code (constructor calls that can raise,
`min` over a possibly empty sequence) is modelled with `Except` / `Option`.
-/

namespace DataMorph

noncomputable section

/-- A 2D point `(x, y)`, as used throughout `shapes.py`. -/
abbrev Point : Type := ℝ × ℝ

/-- Python exceptions raised by the code under consideration. -/
inductive PyError : Type where
  | typeError (msg : String)
  | valueError (msg : String)
deriving DecidableEq, Repr

/-- Embedding of `Shape._euclidean_distance(a, b)`, i.e.
`scipy.spatial.distance.euclidean`: the L2 distance between two 2D points. -/
def euclidean_distance (a b : Point) : ℝ :=
  Real.sqrt ((a.1 - b.1) ^ 2 + (a.2 - b.2) ^ 2)

/-- The scalar projection parameter `u` computed at lines 102-103 of
`shapes.py`: `u1 = ((px - x1) * (x2 - x1)) + ((py - y1) * (y2 - y1))` and
`u = u1 / (line_mag * line_mag)` where `line_mag` is the Euclidean length
of the segment from `s` to `e`. -/
def projParam (p s e : Point) : ℝ :=
  (((p.1 - s.1) * (e.1 - s.1)) + ((p.2 - s.2) * (e.2 - s.2))) /
    (euclidean_distance s e * euclidean_distance s e)

/-- Embedding of `Lines.distance_point_to_line(point, line)` (`shapes.py`
lines 84-118).  If the segment's length is below `0.00000001` the sentinel
`9999` is returned; if the projection parameter `u` is below `0.00001` or
above `1` the MAXIMUM of the two endpoint distances is returned (as in the
source, whose comment says "shorter" but whose code takes `max`); otherwise
the distance to the perpendicular intersection point is returned. -/
def distance_point_to_line (point : Point) (line : Point × Point) : ℝ :=
  if euclidean_distance line.1 line.2 < 0.00000001 then
    9999
  else if projParam point line.1 line.2 < 0.00001 ∨ projParam point line.1 line.2 > 1 then
    max (euclidean_distance point line.1) (euclidean_distance point line.2)
  else
    euclidean_distance point
      (line.1.1 + projParam point line.1 line.2 * (line.2.1 - line.1.1),
       line.1.2 + projParam point line.1 line.2 * (line.2.2 - line.1.2))

/-- The dataset abstraction consumed by the shape constructors.  The pandas
DataFrame is an external collaborator; per the spec it exposes per-axis
means, minima/maxima and the quantiles at 0.05 / 0.5 / 0.95, which is all
that `shapes.py` reads from it. -/
structure Dataset : Type where
  xmean : ℝ
  ymean : ℝ
  xmin : ℝ
  ymin : ℝ
  xmax : ℝ
  ymax : ℝ
  xq05 : ℝ
  xq50 : ℝ
  xq95 : ℝ
  yq05 : ℝ
  yq50 : ℝ
  yq95 : ℝ

/-- The fields of a `Circle` object: centre `(cx, cy)` and radius `r`. -/
structure Circle : Type where
  cx : ℝ
  cy : ℝ
  r : ℝ

/-- Embedding of `Circle.__init__(self, data)` (`shapes.py` lines 29-32):
centre at the dataset's per-axis means, radius the constant `30`. -/
def Circle.init (data : Dataset) : Circle :=
  { cx := data.xmean, cy := data.ymean, r := 30 }

/-- Embedding of `Circle.distance(self, x, y)` (`shapes.py` lines 34-38):
absolute difference between the distance to the centre and the radius. -/
def Circle.distance (c : Circle) (x y : ℝ) : ℝ :=
  |euclidean_distance (c.cx, c.cy) (x, y) - c.r|

/-- A Python value passed positionally to a constructor call: either a
number or the dataset object.  Used to model Python's dynamic argument
checking for the call `Circle(data.x.mean(), data.y.mean(), r)` made by
`Bullseye.__init__`. -/
inductive PyVal : Type where
  | num (q : ℝ)
  | dataset (d : Dataset)

/-- Python-call view of `Circle.__init__`: the signature
`def __init__(self, data)` accepts exactly one positional argument besides
`self`.  Any other argument list raises `TypeError` before the body runs. -/
def Circle.initCall (args : List PyVal) : Except PyError Circle :=
  match args with
  | [PyVal.dataset d] => Except.ok (Circle.init d)
  | _ =>
      Except.error
        (PyError.typeError "Circle.__init__ takes 2 positional arguments but 4 were given")

/-- The fields of a `Bullseye` object: its list of circles. -/
structure Bullseye : Type where
  circles : List Circle

/-- Embedding of `Bullseye.__init__(self, data)` (`shapes.py` lines 44-48):
it evaluates `Circle(data.x.mean(), data.y.mean(), r)` for `r in [18, 37]`,
passing three positional arguments to `Circle.__init__`. -/
def Bullseye.init (data : Dataset) : Except PyError Bullseye := do
  let c1 ← Circle.initCall [PyVal.num data.xmean, PyVal.num data.ymean, PyVal.num 18]
  let c2 ← Circle.initCall [PyVal.num data.xmean, PyVal.num data.ymean, PyVal.num 37]
  Except.ok { circles := [c1, c2] }

/-- Embedding of `Bullseye.distance(self, x, y)` (`shapes.py` lines 50-51):
Python's `min` over the circles' distances; `none` models the `ValueError`
Python's `min` raises on an empty sequence. -/
def Bullseye.distance (b : Bullseye) (x y : ℝ) : Option ℝ :=
  match b.circles.map (fun c => c.distance x y) with
  | [] => none
  | d :: ds => some (ds.foldl min d)

/-- Embedding of `itertools.product(iters)`: the Cartesian product of a list
of iterables, leftmost factor varying slowest. -/
def pyProduct {α : Type} : List (List α) → List (List α)
  | [] => [[]]
  | it :: rest => it.flatMap (fun a => (pyProduct rest).map (fun t => a :: t))

/-- The x-quantile list `data.x.quantile([0.05, 0.5, 0.95]).tolist()`. -/
def Dataset.quantiles_x (d : Dataset) : List ℝ := [d.xq05, d.xq50, d.xq95]

/-- The y-quantile list `data.y.quantile([0.05, 0.5, 0.95]).tolist()`. -/
def Dataset.quantiles_y (d : Dataset) : List ℝ := [d.yq05, d.yq50, d.yq95]

/-- Embedding of `Dots.__init__(self, data)` (`shapes.py` lines 57-63):
`self.dots = list(itertools.product(gen))` where `gen` is a single generator
argument yielding the x-quantile list and then the y-quantile list.  Because
the generator is passed as ONE iterable (it is not star-unpacked into
separate arguments), `itertools.product` receives a single iterable with two
elements and yields 1-tuples, each wrapping an entire quantile list. -/
def Dots.init (d : Dataset) : List (List (List ℝ)) :=
  pyProduct [[d.quantiles_x, d.quantiles_y]]

/-- Modelled from the spec: the 9-dot grid the spec describes for `DotGrid`
(the Cartesian product of the three x-quantiles with the three y-quantiles),
i.e. what `Dots.__init__` would produce with star-unpacking.  Used to compare
the source's behaviour with the specified one. -/
def DotGrid.spec_dots (d : Dataset) : List (List ℝ) :=
  pyProduct [d.quantiles_x, d.quantiles_y]

/-- Embedding of `Lines.distance(self, x, y)` (`shapes.py` lines 78-82):
Python's `min` of `distance_point_to_line` over the stored lines; `none`
models the `ValueError` Python's `min` raises on an empty sequence. -/
def Lines.distance (lines : List (Point × Point)) (x y : ℝ) : Option ℝ :=
  match lines.map (fun line => distance_point_to_line (x, y) line) with
  | [] => none
  | d :: ds => some (ds.foldl min d)

/-- Embedding of `XLines.__init__` (`shapes.py` lines 124-131): the two
diagonals of the data's bounding box. -/
def XLines.lines (d : Dataset) : List (Point × Point) :=
  [((d.xmin, d.ymin), (d.xmax, d.ymax)), ((d.xmin, d.ymax), (d.xmax, d.ymin))]

/-- Embedding of `HorizontalLines.__init__` (`shapes.py` lines 140-146):
five horizontal segments at fixed y positions on the fixed 0-100 range;
the data's bounds are read but not used. -/
def HorizontalLines.lines (_d : Dataset) : List (Point × Point) :=
  ([10, 30, 50, 70, 90] : List ℝ).map (fun y => ((0, y), (100, y)))

/-- Embedding of `VerticalLines.__init__` (`shapes.py` lines 155-161):
five vertical segments at fixed x positions on the fixed 0-100 range;
the data's bounds are read but not used. -/
def VerticalLines.lines (_d : Dataset) : List (Point × Point) :=
  ([10, 30, 50, 70, 90] : List ℝ).map (fun x => ((x, 0), (x, 100)))

/-- A successfully constructed shape object, tagged by its class.  Line
figures carry the `__repr__` name (`"x"`, `"h_lines"`, `"v_lines"`) and their
segments. -/
inductive Shape : Type where
  | circle (c : Circle)
  | bullseye (b : Bullseye)
  | dots (dots : List (List (List ℝ)))
  | lines (rname : String) (segments : List (Point × Point))

/-- The keys of `ShapeFactory.AVAILABLE_SHAPES` (`shapes.py` lines 178-186),
in dictionary order. -/
def ShapeFactory.AVAILABLE_SHAPES : List String :=
  ["circle", "bullseye", "dots", "x", "h_lines", "v_lines"]

/-- Embedding of `ShapeFactory.generate_shape(self, shape)` (`shapes.py`
lines 191-195): look the name up in `AVAILABLE_SHAPES` and call the matching
constructor with the data; a missing key becomes
`ValueError(f'No such shape as {shape}.')`.  An exception raised by the
constructor itself (such as the `TypeError` from `Bullseye`) propagates. -/
def ShapeFactory.generate_shape (data : Dataset) (shape : String) : Except PyError Shape :=
  if shape = "circle" then Except.ok (Shape.circle (Circle.init data))
  else if shape = "bullseye" then (Bullseye.init data).map Shape.bullseye
  else if shape = "dots" then Except.ok (Shape.dots (Dots.init data))
  else if shape = "x" then Except.ok (Shape.lines "x" (XLines.lines data))
  else if shape = "h_lines" then Except.ok (Shape.lines "h_lines" (HorizontalLines.lines data))
  else if shape = "v_lines" then Except.ok (Shape.lines "v_lines" (VerticalLines.lines data))
  else Except.error (PyError.valueError ("No such shape as " ++ shape ++ "."))

/-- A concrete dataset used to instantiate universally quantified theorems. -/
def testData : Dataset :=
  { xmean := 0, ymean := 0, xmin := 0, ymin := 0, xmax := 0, ymax := 0,
    xq05 := 0, xq50 := 0, xq95 := 0, yq05 := 0, yq50 := 0, yq95 := 0 }

/-! Helper lemmas for evaluating the embedded geometry. -/

/-- Evaluation helper: the square root of a number exhibited as a square. -/
theorem sqrt_eval {a b : ℝ} (hb : 0 ≤ b) (h : a = b ^ 2) : Real.sqrt a = b := by
  rw [h]
  exact Real.sqrt_sq hb

/-- Evaluation helper for `euclidean_distance` at explicit coordinates. -/
theorem euclidean_eval {x1 y1 x2 y2 d : ℝ} (hd : 0 ≤ d)
    (h : (x1 - x2) ^ 2 + (y1 - y2) ^ 2 = d ^ 2) :
    euclidean_distance (x1, y1) (x2, y2) = d :=
  sqrt_eval hd h

/-- Euclidean distances are non-negative. -/
theorem euclidean_nonneg (a b : Point) : 0 ≤ euclidean_distance a b :=
  Real.sqrt_nonneg _

/-- The Euclidean distance from a point to itself is zero. -/
theorem euclidean_self (p : Point) : euclidean_distance p p = 0 := by
  unfold euclidean_distance
  simp

/-- The projection parameter of a segment's start onto the segment is zero. -/
theorem projParam_self (s e : Point) : projParam s s e = 0 := by
  unfold projParam
  simp

/-- Branch lemma: a segment shorter than the epsilon yields the sentinel. -/
theorem dptl_degenerate_eq (p : Point) (l : Point × Point)
    (hmag : euclidean_distance l.1 l.2 < 0.00000001) :
    distance_point_to_line p l = 9999 := by
  simp only [distance_point_to_line]
  rw [if_pos hmag]

/-- Branch lemma: a projection parameter outside the tolerated range yields
the maximum of the two endpoint distances. -/
theorem dptl_endpoint_eq (p s e : Point)
    (hmag : ¬ euclidean_distance s e < 0.00000001)
    (hcond : projParam p s e < 0.00001 ∨ projParam p s e > 1) :
    distance_point_to_line p (s, e) =
      max (euclidean_distance p s) (euclidean_distance p e) := by
  simp only [distance_point_to_line]
  rw [if_neg hmag, if_pos hcond]

/-- Branch lemma: a projection parameter inside the tolerated range yields the
distance to the perpendicular intersection point. -/
theorem dptl_projected_eq (p : Point) (x1 y1 x2 y2 : ℝ)
    (hmag : ¬ euclidean_distance (x1, y1) (x2, y2) < 0.00000001)
    (hcond : ¬ (projParam p (x1, y1) (x2, y2) < 0.00001 ∨
      projParam p (x1, y1) (x2, y2) > 1)) :
    distance_point_to_line p ((x1, y1), (x2, y2)) =
      euclidean_distance p
        (x1 + projParam p (x1, y1) (x2, y2) * (x2 - x1),
         y1 + projParam p (x1, y1) (x2, y2) * (y2 - y1)) := by
  simp only [distance_point_to_line]
  rw [if_neg hmag, if_neg hcond]

/-- Every value of `distance_point_to_line` is non-negative. -/
theorem dptl_nonneg (p : Point) (l : Point × Point) : 0 ≤ distance_point_to_line p l := by
  unfold distance_point_to_line
  split_ifs with h1 h2
  · norm_num
  · exact le_trans (euclidean_nonneg _ _) (le_max_left _ _)
  · exact euclidean_nonneg _ _

/-- A left fold by `min` over non-negative reals from a non-negative seed
stays non-negative. -/
theorem foldl_min_nonneg :
    ∀ (ds : List ℝ) (d : ℝ), 0 ≤ d → (∀ x ∈ ds, 0 ≤ x) → 0 ≤ ds.foldl min d
  | [], _, hd, _ => hd
  | a :: as, d, hd, h =>
      foldl_min_nonneg as (min d a) (le_min hd (h a (List.mem_cons_self a as)))
        (fun x hx => h x (List.mem_cons_of_mem _ hx))

/-- The horizontal test segment `[(0,10),(100,10)]` has length 100. -/
theorem hseg_length : euclidean_distance ((0 : ℝ), (10 : ℝ)) ((100 : ℝ), (10 : ℝ)) = 100 :=
  euclidean_eval (by norm_num) (by norm_num)

/-- The horizontal test segment is not degenerate. -/
theorem hseg_not_degenerate :
    ¬ euclidean_distance ((0 : ℝ), (10 : ℝ)) ((100 : ℝ), (10 : ℝ)) < 0.00000001 := by
  rw [hseg_length]
  norm_num

/-- Evaluation of `distance_point_to_line` at `(-10, 10)` against the
horizontal test segment: the projection parameter is `-0.1`, so the endpoint
branch fires and returns `max 10 110 = 110`. -/
theorem hseg_outside_value :
    distance_point_to_line ((-10 : ℝ), (10 : ℝ)) (((0 : ℝ), (10 : ℝ)), ((100 : ℝ), (10 : ℝ))) =
      110 := by
  have hu0 : projParam ((-10 : ℝ), (10 : ℝ)) ((0 : ℝ), (10 : ℝ)) ((100 : ℝ), (10 : ℝ)) =
      -(1 / 10) := by
    simp only [projParam]
    rw [hseg_length]
    norm_num
  have hcond : projParam ((-10 : ℝ), (10 : ℝ)) ((0 : ℝ), (10 : ℝ)) ((100 : ℝ), (10 : ℝ)) <
      0.00001 ∨
      projParam ((-10 : ℝ), (10 : ℝ)) ((0 : ℝ), (10 : ℝ)) ((100 : ℝ), (10 : ℝ)) > 1 :=
    Or.inl (by rw [hu0]; norm_num)
  rw [dptl_endpoint_eq _ _ _ hseg_not_degenerate hcond]
  have e1 : euclidean_distance ((-10 : ℝ), (10 : ℝ)) ((0 : ℝ), (10 : ℝ)) = 10 :=
    euclidean_eval (by norm_num) (by norm_num)
  have e2 : euclidean_distance ((-10 : ℝ), (10 : ℝ)) ((100 : ℝ), (10 : ℝ)) = 110 :=
    euclidean_eval (by norm_num) (by norm_num)
  rw [e1, e2]
  exact max_eq_right (by norm_num)

/-- C1: whenever the projection parameter `u` of the point onto a
non-degenerate segment falls below the `0.00001` lower-bound tolerance or
above `1`, `distance_point_to_line` returns the larger (`max`) of the point's
Euclidean distances to the two segment endpoints. -/
theorem outside_projection_takes_larger_endpoint_distance
    (point : Point) (line : Point × Point)
    (hmag : ¬ euclidean_distance line.1 line.2 < 0.00000001)
    (hcond : projParam point line.1 line.2 < 0.00001 ∨
      projParam point line.1 line.2 > 1) :
    distance_point_to_line point line =
      max (euclidean_distance point line.1) (euclidean_distance point line.2) := by
  simp only [distance_point_to_line]
  rw [if_neg hmag, if_pos hcond]

/-- Witness for C1 at the concrete input `(-10, 10)` against the segment
`[(0,10),(100,10)]`, whose projection parameter is `-0.1 < 0.00001`. -/
theorem outside_projection_takes_larger_endpoint_distance_witness :
    (¬ euclidean_distance ((0 : ℝ), (10 : ℝ)) ((100 : ℝ), (10 : ℝ)) < 0.00000001) ∧
    (projParam ((-10 : ℝ), (10 : ℝ)) ((0 : ℝ), (10 : ℝ)) ((100 : ℝ), (10 : ℝ)) < 0.00001 ∨
      projParam ((-10 : ℝ), (10 : ℝ)) ((0 : ℝ), (10 : ℝ)) ((100 : ℝ), (10 : ℝ)) > 1) ∧
    distance_point_to_line ((-10 : ℝ), (10 : ℝ)) (((0 : ℝ), (10 : ℝ)), ((100 : ℝ), (10 : ℝ))) =
      max (euclidean_distance ((-10 : ℝ), (10 : ℝ)) ((0 : ℝ), (10 : ℝ)))
        (euclidean_distance ((-10 : ℝ), (10 : ℝ)) ((100 : ℝ), (10 : ℝ))) := by
  have hu0 : projParam ((-10 : ℝ), (10 : ℝ)) ((0 : ℝ), (10 : ℝ)) ((100 : ℝ), (10 : ℝ)) =
      -(1 / 10) := by
    simp only [projParam]
    rw [hseg_length]
    norm_num
  have hcond : projParam ((-10 : ℝ), (10 : ℝ)) ((0 : ℝ), (10 : ℝ)) ((100 : ℝ), (10 : ℝ)) <
      0.00001 ∨
      projParam ((-10 : ℝ), (10 : ℝ)) ((0 : ℝ), (10 : ℝ)) ((100 : ℝ), (10 : ℝ)) > 1 :=
    Or.inl (by rw [hu0]; norm_num)
  exact ⟨hseg_not_degenerate, hcond,
    outside_projection_takes_larger_endpoint_distance _ _ hseg_not_degenerate hcond⟩

/-- C2 counterexample: for the point `(-10, 10)` whose projection falls
outside the horizontal segment `[(0,10),(100,10)]`, the function does NOT
return `10` (it returns `110`, the larger endpoint distance). -/
theorem hseg_outside_point_not_ten :
    distance_point_to_line ((-10 : ℝ), (10 : ℝ)) (((0 : ℝ), (10 : ℝ)), ((100 : ℝ), (10 : ℝ))) ≠
      10 := by
  rw [hseg_outside_value]
  norm_num

/-- C2 (amended): for the horizontal segment `[(0,10),(100,10)]`,
`distance_point_to_line` returns `0` at `(50,10)`, `10` at `(50,20)`, and
`110` — the larger endpoint distance — at `(-10,10)`. -/
theorem hseg_distance_values :
    distance_point_to_line ((50 : ℝ), (10 : ℝ)) (((0 : ℝ), (10 : ℝ)), ((100 : ℝ), (10 : ℝ))) =
      0 ∧
    distance_point_to_line ((50 : ℝ), (20 : ℝ)) (((0 : ℝ), (10 : ℝ)), ((100 : ℝ), (10 : ℝ))) =
      10 ∧
    distance_point_to_line ((-10 : ℝ), (10 : ℝ)) (((0 : ℝ), (10 : ℝ)), ((100 : ℝ), (10 : ℝ))) =
      110 := by
  refine ⟨?_, ?_, hseg_outside_value⟩
  · have hu0 : projParam ((50 : ℝ), (10 : ℝ)) ((0 : ℝ), (10 : ℝ)) ((100 : ℝ), (10 : ℝ)) =
        1 / 2 := by
      simp only [projParam]
      rw [hseg_length]
      norm_num
    have hcond : ¬ (projParam ((50 : ℝ), (10 : ℝ)) ((0 : ℝ), (10 : ℝ)) ((100 : ℝ), (10 : ℝ)) <
        0.00001 ∨
        projParam ((50 : ℝ), (10 : ℝ)) ((0 : ℝ), (10 : ℝ)) ((100 : ℝ), (10 : ℝ)) > 1) := by
      rw [hu0]
      norm_num
    rw [dptl_projected_eq _ _ _ _ _ hseg_not_degenerate hcond, hu0]
    exact euclidean_eval le_rfl (by norm_num)
  · have hu0 : projParam ((50 : ℝ), (20 : ℝ)) ((0 : ℝ), (10 : ℝ)) ((100 : ℝ), (10 : ℝ)) =
        1 / 2 := by
      simp only [projParam]
      rw [hseg_length]
      norm_num
    have hcond : ¬ (projParam ((50 : ℝ), (20 : ℝ)) ((0 : ℝ), (10 : ℝ)) ((100 : ℝ), (10 : ℝ)) <
        0.00001 ∨
        projParam ((50 : ℝ), (20 : ℝ)) ((0 : ℝ), (10 : ℝ)) ((100 : ℝ), (10 : ℝ)) > 1) := by
      rw [hu0]
      norm_num
    rw [dptl_projected_eq _ _ _ _ _ hseg_not_degenerate hcond, hu0]
    exact euclidean_eval (by norm_num) (by norm_num)

/-- C5: `distance_point_to_line` on any segment whose Euclidean length is
below the `0.00000001` epsilon returns the sentinel `9999`, for every point.
The embedding is a total function on the reals, so no exception and no
division by zero can occur. -/
theorem degenerate_segment_returns_sentinel (p : Point) (l : Point × Point)
    (hmag : euclidean_distance l.1 l.2 < 0.00000001) :
    distance_point_to_line p l = 9999 := by
  simp only [distance_point_to_line]
  rw [if_pos hmag]

/-- Witness for C5 at the degenerate segment `[(5,5),(5,5)]` and the point
`(1, 2)`. -/
theorem degenerate_segment_returns_sentinel_witness :
    euclidean_distance ((5 : ℝ), (5 : ℝ)) ((5 : ℝ), (5 : ℝ)) < 0.00000001 ∧
    distance_point_to_line ((1 : ℝ), (2 : ℝ)) (((5 : ℝ), (5 : ℝ)), ((5 : ℝ), (5 : ℝ))) =
      9999 := by
  have hmag : euclidean_distance ((5 : ℝ), (5 : ℝ)) ((5 : ℝ), (5 : ℝ)) < 0.00000001 := by
    rw [euclidean_self]
    norm_num
  exact ⟨hmag, degenerate_segment_returns_sentinel _ _ hmag⟩

/-- C7 counterexample: the point `(0, 10)` is the start endpoint of the
segment `[(0,10),(100,10)]` of a line figure — it lies on the segment — yet
its `distance_point_to_line` value is `100` (the larger endpoint distance,
the full segment length), not `0`. -/
theorem segment_endpoint_distance_nonzero :
    distance_point_to_line ((0 : ℝ), (10 : ℝ)) (((0 : ℝ), (10 : ℝ)), ((100 : ℝ), (10 : ℝ))) =
      100 ∧ (100 : ℝ) ≠ 0 := by
  refine ⟨?_, by norm_num⟩
  have hu0 : projParam ((0 : ℝ), (10 : ℝ)) ((0 : ℝ), (10 : ℝ)) ((100 : ℝ), (10 : ℝ)) = 0 :=
    projParam_self _ _
  rw [dptl_endpoint_eq _ _ _ hseg_not_degenerate (Or.inl (by rw [hu0]; norm_num))]
  rw [euclidean_self, hseg_length]
  exact max_eq_right (by norm_num)

/-- At the end endpoint of a non-degenerate segment the projection parameter
is exactly 1: the numerator equals the squared segment length and the
denominator `line_mag * line_mag` recovers that same squared length. -/
theorem projParam_end (s e : Point) (hmag : ¬ euclidean_distance s e < 0.00000001) :
    projParam e s e = 1 := by
  have hA : 0 < (s.1 - e.1) ^ 2 + (s.2 - e.2) ^ 2 := by
    by_contra hc
    push_neg at hc
    have h0 : (s.1 - e.1) ^ 2 + (s.2 - e.2) ^ 2 = 0 :=
      le_antisymm hc (by positivity)
    apply hmag
    unfold euclidean_distance
    rw [h0, Real.sqrt_zero]
    norm_num
  unfold projParam euclidean_distance
  rw [Real.mul_self_sqrt (by positivity)]
  rw [div_eq_one_iff_eq (ne_of_gt hA)]
  ring

/-- At the end endpoint of a non-degenerate segment, `u = 1` is inside the
tolerated range, the projected branch fires, the perpendicular foot is the
endpoint itself, and the distance is zero. -/
theorem dptl_end_endpoint_zero (s e : Point)
    (hmag : ¬ euclidean_distance s e < 0.00000001) :
    distance_point_to_line e (s, e) = 0 := by
  have hu : projParam e s e = 1 := projParam_end s e hmag
  simp only [distance_point_to_line]
  rw [if_neg hmag, if_neg (by rw [hu]; norm_num)]
  rw [hu]
  exact euclidean_eval le_rfl (by ring)

/-- C7 (amended): every shape distance the code can evaluate is
non-negative — `Circle.distance` (zero exactly when the point is at
Euclidean distance `radius` from the centre), `distance_point_to_line`, and
`Lines.distance` — but a point lying on a segment of a line figure need NOT
have distance zero: a non-degenerate segment's START endpoint has projection
parameter `0`, below the `0.00001` tolerance, so it gets the larger endpoint
distance (the full segment length), while the END endpoint has projection
parameter exactly `1`, takes the projected branch, and gets distance zero. -/
theorem shape_distance_nonneg_and_endpoint_policy :
    (∀ (c : Circle) (x y : ℝ), 0 ≤ Circle.distance c x y) ∧
    (∀ (c : Circle) (x y : ℝ),
      Circle.distance c x y = 0 ↔ euclidean_distance (c.cx, c.cy) (x, y) = c.r) ∧
    (∀ (p : Point) (l : Point × Point), 0 ≤ distance_point_to_line p l) ∧
    (∀ (lines : List (Point × Point)) (x y r : ℝ),
      Lines.distance lines x y = some r → 0 ≤ r) ∧
    (∀ (s e : Point), ¬ euclidean_distance s e < 0.00000001 →
      distance_point_to_line s (s, e) = euclidean_distance s e) ∧
    (∀ (s e : Point), ¬ euclidean_distance s e < 0.00000001 →
      distance_point_to_line e (s, e) = 0) := by
  refine ⟨?_, ?_, dptl_nonneg, ?_, ?_, dptl_end_endpoint_zero⟩
  · intro c x y
    exact abs_nonneg _
  · intro c x y
    simp only [Circle.distance]
    exact abs_eq_zero.trans sub_eq_zero
  · intro lines x y r h
    cases lines with
    | nil => simp [Lines.distance] at h
    | cons l rest =>
        simp only [Lines.distance, List.map_cons, Option.some.injEq] at h
        subst h
        refine foldl_min_nonneg _ _ (dptl_nonneg _ _) ?_
        intro z hz
        simp only [List.mem_map] at hz
        obtain ⟨w, _, rfl⟩ := hz
        exact dptl_nonneg _ _
  · intro s e hmag
    rw [dptl_endpoint_eq _ _ _ hmag (Or.inl (by rw [projParam_self]; norm_num))]
    rw [euclidean_self]
    exact max_eq_right (euclidean_nonneg _ _)

/-- Witness for C7 (amended) at the segment `[(0,10),(200,10)]`: its start
endpoint's distance equals the segment's length while its end endpoint's
distance is zero. -/
theorem shape_distance_nonneg_and_endpoint_policy_witness :
    (¬ euclidean_distance ((0 : ℝ), (10 : ℝ)) ((200 : ℝ), (10 : ℝ)) < 0.00000001) ∧
    distance_point_to_line ((0 : ℝ), (10 : ℝ)) (((0 : ℝ), (10 : ℝ)), ((200 : ℝ), (10 : ℝ))) =
      euclidean_distance ((0 : ℝ), (10 : ℝ)) ((200 : ℝ), (10 : ℝ)) ∧
    distance_point_to_line ((200 : ℝ), (10 : ℝ)) (((0 : ℝ), (10 : ℝ)), ((200 : ℝ), (10 : ℝ))) =
      0 := by
  have hL : euclidean_distance ((0 : ℝ), (10 : ℝ)) ((200 : ℝ), (10 : ℝ)) = 200 :=
    euclidean_eval (by norm_num) (by norm_num)
  have hmag : ¬ euclidean_distance ((0 : ℝ), (10 : ℝ)) ((200 : ℝ), (10 : ℝ)) < 0.00000001 := by
    rw [hL]
    norm_num
  exact ⟨hmag, shape_distance_nonneg_and_endpoint_policy.2.2.2.2.1 _ _ hmag,
    shape_distance_nonneg_and_endpoint_policy.2.2.2.2.2 _ _ hmag⟩

/-- C3: for every dataset, `Bullseye.__init__` raises `TypeError` — it calls
`Circle(data.x.mean(), data.y.mean(), r)` with three positional arguments
while `Circle.__init__(self, data)` accepts only one — so no Bullseye is ever
constructed and its distance can never be evaluated. -/
theorem bullseye_construction_type_error :
    ∀ (d : Dataset),
      Bullseye.init d =
        Except.error
          (PyError.typeError "Circle.__init__ takes 2 positional arguments but 4 were given") :=
  fun _ => rfl

/-- C4: for every dataset, `Dots.__init__` builds 2 elements, not 9: the
generator is passed to `itertools.product` without star-unpacking, so the
product of the single iterable yields two 1-tuples, each wrapping a whole
quantile list.  The spec-modelled star-unpacked grid would have 9 dots. -/
theorem dots_two_malformed_elements :
    ∀ (d : Dataset),
      Dots.init d = [[d.quantiles_x], [d.quantiles_y]] ∧
      (Dots.init d).length = 2 ∧
      (DotGrid.spec_dots d).length = 9 :=
  fun _ => ⟨rfl, rfl, rfl⟩

/-! Registry / factory lemmas. -/

/-- Lookup failure: a name absent from `AVAILABLE_SHAPES` makes
`generate_shape` return the `ValueError` naming the offending shape. -/
theorem generate_shape_missing_key (data : Dataset) (name : String)
    (h : name ∉ ShapeFactory.AVAILABLE_SHAPES) :
    ShapeFactory.generate_shape data name =
      Except.error (PyError.valueError ("No such shape as " ++ name ++ ".")) := by
  simp only [ShapeFactory.AVAILABLE_SHAPES, List.mem_cons, List.not_mem_nil, or_false,
    not_or] at h
  obtain ⟨h1, h2, h3, h4, h5, h6⟩ := h
  simp only [ShapeFactory.generate_shape, if_neg h1, if_neg h2, if_neg h3, if_neg h4,
    if_neg h5, if_neg h6]

/-- Evaluation of the factory at the key `"circle"`. -/
theorem generate_shape_circle_eq (data : Dataset) :
    ShapeFactory.generate_shape data "circle" =
      Except.ok (Shape.circle (Circle.init data)) := rfl

/-- Evaluation of the factory at the key `"bullseye"`: the constructor's
`TypeError` propagates. -/
theorem generate_shape_bullseye_eq (data : Dataset) :
    ShapeFactory.generate_shape data "bullseye" =
      Except.error
        (PyError.typeError "Circle.__init__ takes 2 positional arguments but 4 were given") :=
  rfl

/-- Evaluation of the factory at the key `"dots"`. -/
theorem generate_shape_dots_eq (data : Dataset) :
    ShapeFactory.generate_shape data "dots" = Except.ok (Shape.dots (Dots.init data)) := rfl

/-- Evaluation of the factory at the key `"x"`. -/
theorem generate_shape_x_eq (data : Dataset) :
    ShapeFactory.generate_shape data "x" =
      Except.ok (Shape.lines "x" (XLines.lines data)) := rfl

/-- Evaluation of the factory at the key `"h_lines"`. -/
theorem generate_shape_h_lines_eq (data : Dataset) :
    ShapeFactory.generate_shape data "h_lines" =
      Except.ok (Shape.lines "h_lines" (HorizontalLines.lines data)) := rfl

/-- Evaluation of the factory at the key `"v_lines"`. -/
theorem generate_shape_v_lines_eq (data : Dataset) :
    ShapeFactory.generate_shape data "v_lines" =
      Except.ok (Shape.lines "v_lines" (VerticalLines.lines data)) := rfl

/-- C6: for every name not present in the registry, `generate_shape` fails
with `ValueError` whose message is exactly `"No such shape as {name}."`; no
shape is returned and no default is used. -/
theorem unknown_name_raises_value_error (data : Dataset) (name : String)
    (h : name ∉ ShapeFactory.AVAILABLE_SHAPES) :
    ShapeFactory.generate_shape data name =
      Except.error (PyError.valueError ("No such shape as " ++ name ++ ".")) :=
  generate_shape_missing_key data name h

/-- Witness for C6 at the concrete unknown name `"not-a-shape"`. -/
theorem unknown_name_raises_value_error_witness :
    "not-a-shape" ∉ ShapeFactory.AVAILABLE_SHAPES ∧
    ShapeFactory.generate_shape testData "not-a-shape" =
      Except.error (PyError.valueError "No such shape as not-a-shape.") := by
  refine ⟨by decide, ?_⟩
  exact unknown_name_raises_value_error testData "not-a-shape" (by decide)

/-- C8 counterexample: the names the claim lists (other than `circle` and
`bullseye`) are NOT in the registry — `dot-grid`, `x-lines`,
`horizontal-lines` and `vertical-lines` are all rejected by lookup. -/
theorem claimed_shape_names_not_registered :
    "dot-grid" ∉ ShapeFactory.AVAILABLE_SHAPES ∧
    "x-lines" ∉ ShapeFactory.AVAILABLE_SHAPES ∧
    "horizontal-lines" ∉ ShapeFactory.AVAILABLE_SHAPES ∧
    "vertical-lines" ∉ ShapeFactory.AVAILABLE_SHAPES ∧
    ShapeFactory.generate_shape testData "dot-grid" =
      Except.error (PyError.valueError ("No such shape as " ++ "dot-grid" ++ ".")) := by
  refine ⟨by decide, by decide, by decide, by decide, ?_⟩
  exact generate_shape_missing_key testData "dot-grid" (by decide)

/-- C8 (amended): the registry's key set is fixed and consists exactly of
`circle`, `bullseye`, `dots`, `x`, `h_lines` and `v_lines`; lookup rejects a
name with the `ValueError` exactly when the name is not among those keys. -/
theorem available_shapes_exact_names :
    ShapeFactory.AVAILABLE_SHAPES = ["circle", "bullseye", "dots", "x", "h_lines", "v_lines"] ∧
    ∀ (data : Dataset) (name : String),
      (ShapeFactory.generate_shape data name =
        Except.error (PyError.valueError ("No such shape as " ++ name ++ "."))) ↔
      name ∉ ShapeFactory.AVAILABLE_SHAPES := by
  refine ⟨rfl, ?_⟩
  intro data name
  constructor
  · intro h hmem
    simp only [ShapeFactory.AVAILABLE_SHAPES, List.mem_cons, List.not_mem_nil,
      or_false] at hmem
    rcases hmem with rfl | rfl | rfl | rfl | rfl | rfl
    · rw [generate_shape_circle_eq] at h
      exact Except.noConfusion h
    · rw [generate_shape_bullseye_eq] at h
      injection h with h'
      exact PyError.noConfusion h'
    · rw [generate_shape_dots_eq] at h
      exact Except.noConfusion h
    · rw [generate_shape_x_eq] at h
      exact Except.noConfusion h
    · rw [generate_shape_h_lines_eq] at h
      exact Except.noConfusion h
    · rw [generate_shape_v_lines_eq] at h
      exact Except.noConfusion h
  · exact generate_shape_missing_key data name

/-- Witness for C8 (amended) at the concrete name `"wide_lines"`. -/
theorem available_shapes_exact_names_witness :
    (ShapeFactory.generate_shape testData "wide_lines" =
      Except.error (PyError.valueError ("No such shape as " ++ "wide_lines" ++ "."))) ↔
    "wide_lines" ∉ ShapeFactory.AVAILABLE_SHAPES :=
  available_shapes_exact_names.2 testData "wide_lines"

/-- C9: for every dataset, building `"circle"` from the registry returns a
`Circle` whose centre coordinates equal the dataset's per-axis means. -/
theorem generate_circle_center_is_mean :
    ∀ (d : Dataset), ∃ c : Circle,
      ShapeFactory.generate_shape d "circle" = Except.ok (Shape.circle c) ∧
      c.cx = d.xmean ∧ c.cy = d.ymean :=
  fun d => ⟨Circle.init d, rfl, rfl, rfl⟩

/-- C10: the constructed `Circle`'s radius is the constant `30` for every
dataset, hence equal across any two datasets — only the centre is fitted to
the data. -/
theorem circle_radius_constant_thirty :
    (∀ (d : Dataset), (Circle.init d).r = 30) ∧
    (∀ (d1 d2 : Dataset), (Circle.init d1).r = (Circle.init d2).r) :=
  ⟨fun _ => rfl, fun _ _ => rfl⟩

end

end DataMorph
